import Mathlib

/-!
Shallow embedding of the spark-rag client (gradio_chat_app.py,
gradio_kb_manager_enhanced.py, gradio_kb_manager_fixed.py) and proofs
about its stream decoding, shape normalization, upload orchestration and
fallback behaviour.

JSON values are modelled by an inductive `Json`; Python's dynamic
operations on decoded JSON (`in`, `.get`, indexing, truthiness, `len`)
are modelled by total Lean functions returning `Option`/markers where
the Python operation would raise.
-/

/-- Decoded JSON value, as produced by Python's json.loads on the
payloads this client handles (numbers restricted to integers, which is
all the embedded code paths ever inspect). -/
inductive Json where
  | null
  | bool (b : Bool)
  | num (n : Int)
  | str (s : String)
  | arr (xs : List Json)
  | obj (fields : List (String × Json))
deriving Repr

mutual

/-- Structural (Python ==) equality on decoded JSON values. -/
def Json.beq : Json → Json → Bool
  | .null, .null => true
  | .bool a, .bool b => a == b
  | .num a, .num b => a == b
  | .str a, .str b => a == b
  | .arr a, .arr b => Json.beqList a b
  | .obj a, .obj b => Json.beqFields a b
  | _, _ => false

/-- Element-wise equality of JSON arrays. -/
def Json.beqList : List Json → List Json → Bool
  | [], [] => true
  | x :: xs, y :: ys => Json.beq x y && Json.beqList xs ys
  | _, _ => false

/-- Element-wise equality of JSON object field lists. -/
def Json.beqFields : List (String × Json) → List (String × Json) → Bool
  | [], [] => true
  | (k, v) :: xs, (l, w) :: ys => k == l && Json.beq v w && Json.beqFields xs ys
  | _, _ => false

end

instance : BEq Json := ⟨Json.beq⟩

namespace Json

/-- First value bound to key `k` in an object field list (Python dicts
decoded from JSON have unique keys, so first = only). -/
def lookupField : List (String × Json) → String → Option Json
  | [], _ => none
  | (k, v) :: fs, key => if k == key then some v else lookupField fs key

/-- Python truthiness of a decoded JSON value: None, False, 0, "", [],
{} are falsy, everything else truthy. -/
def pyTruthy : Json → Bool
  | .null => false
  | .bool b => b
  | .num n => n != 0
  | .str s => !s.isEmpty
  | .arr xs => !xs.isEmpty
  | .obj fs => !fs.isEmpty

/-- Python len() on a decoded JSON value; `none` where Python raises
TypeError (numbers, booleans, None have no len). -/
def pyLen : Json → Option Nat
  | .str s => some s.length
  | .arr xs => some xs.length
  | .obj fs => some fs.length
  | _ => none

/-- Whether string `sub` occurs as a substring of `s` (Python `sub in s`
for strings); defined via splitOn, which is sound for the non-empty
keys the embedded code uses. -/
def strContains (s sub : String) : Bool :=
  (s.splitOn sub).length != 1

/-- Python `key in value` for a decoded JSON value: key lookup on
dicts, membership on lists, substring test on strings; `none` where
Python raises TypeError. -/
def keyMem (key : String) : Json → Option Bool
  | .obj fs => some (lookupField fs key).isSome
  | .arr xs => some (xs.contains (.str key))
  | .str s => some (strContains s key)
  | _ => none

/-- Python `value.get(key, default)` : only dicts have .get; `none`
models the AttributeError on any other value. A key bound to JSON null
is present, so its None value is returned, not the default. -/
def dictGetD (j : Json) (key : String) (d : Json) : Option Json :=
  match j with
  | .obj fs => some ((lookupField fs key).getD d)
  | _ => none

/-- Python `value[key]` for a string key: dict lookup; `none` models
KeyError (missing key) and TypeError (non-dict). -/
def dictIndex (j : Json) (key : String) : Option Json :=
  match j with
  | .obj fs => lookupField fs key
  | _ => none

end Json

section JsonParser

/-- JSON insignificant whitespace, as accepted by Python's json.loads. -/
def jsonWs (c : Char) : Bool :=
  c == ' ' || c == '\t' || c == '\n' || c == '\r'

/-- Drop leading JSON whitespace. -/
def skipWs : List Char → List Char
  | [] => []
  | c :: cs => if jsonWs c then skipWs cs else c :: cs

/-- Decimal digit test. -/
def isDigitCh (c : Char) : Bool :=
  '0' ≤ c && c ≤ '9'

/-- Consume a run of decimal digits, returning their value and the rest. -/
def takeDigits : List Char → Nat → Nat × List Char
  | [], acc => (acc, [])
  | c :: cs, acc =>
      if isDigitCh c then takeDigits cs (acc * 10 + (c.toNat - '0'.toNat))
      else (acc, c :: cs)

/-- Parse the body of a JSON string after the opening quote, handling
the simple escapes; fails on invalid escapes (as json.loads does). -/
def parseStrBody : List Char → Option (List Char × List Char)
  | [] => none
  | '"' :: cs => some ([], cs)
  | '\\' :: e :: cs =>
      (match e with
       | 'n' => some '\n'
       | 't' => some '\t'
       | 'r' => some '\r'
       | '"' => some '"'
       | '\\' => some '\\'
       | '/' => some '/'
       | 'b' => some (Char.ofNat 8)
       | 'f' => some (Char.ofNat 12)
       | _ => none).bind fun ch =>
        (parseStrBody cs).map fun (body, rest) => (ch :: body, rest)
  | '\\' :: [] => none
  | c :: cs => (parseStrBody cs).map fun (body, rest) => (c :: body, rest)

mutual

/-- Parse one JSON value (fuelled recursive-descent, mirroring what
json.loads accepts on the payloads in this repository). -/
def parseVal : Nat → List Char → Option (Json × List Char)
  | 0, _ => none
  | _ + 1, [] => none
  | fuel + 1, c :: cs =>
      if c == '"' then
        (parseStrBody cs).map fun (body, rest) => (Json.str ⟨body⟩, rest)
      else if c == '[' then
        parseArrItems fuel (skipWs cs) true
      else if c == Char.ofNat 123 then
        parseObjItems fuel (skipWs cs) true
      else if c == 't' then
        match cs with
        | 'r' :: 'u' :: 'e' :: rest => some (Json.bool true, rest)
        | _ => none
      else if c == 'f' then
        match cs with
        | 'a' :: 'l' :: 's' :: 'e' :: rest => some (Json.bool false, rest)
        | _ => none
      else if c == 'n' then
        match cs with
        | 'u' :: 'l' :: 'l' :: rest => some (Json.null, rest)
        | _ => none
      else if c == '-' then
        match cs with
        | d :: ds =>
            if isDigitCh d then
              let (n, rest) := takeDigits ds (d.toNat - '0'.toNat)
              some (Json.num (-(n : Int)), rest)
            else none
        | [] => none
      else if isDigitCh c then
        let (n, rest) := takeDigits cs (c.toNat - '0'.toNat)
        some (Json.num (n : Int), rest)
      else none

/-- Parse array items after '[' (first=true allows immediate ']'). -/
def parseArrItems : Nat → List Char → Bool → Option (Json × List Char)
  | 0, _, _ => none
  | _ + 1, [], _ => none
  | fuel + 1, c :: cs, first =>
      if first && c == ']' then some (Json.arr [], cs)
      else
        (parseVal fuel (c :: cs)).bind fun (v, rest) =>
          match skipWs rest with
          | ']' :: rest2 => some (Json.arr [v], rest2)
          | ',' :: rest2 =>
              (parseArrItems fuel (skipWs rest2) false).bind fun (tl, rest3) =>
                match tl with
                | Json.arr vs => some (Json.arr (v :: vs), rest3)
                | _ => none
          | _ => none

/-- Parse object members after the opening brace (first=true allows an
immediately closing brace). -/
def parseObjItems : Nat → List Char → Bool → Option (Json × List Char)
  | 0, _, _ => none
  | _ + 1, [], _ => none
  | fuel + 1, c :: cs, first =>
      if first && c == Char.ofNat 125 then some (Json.obj [], cs)
      else if c == '"' then
        (parseStrBody cs).bind fun (key, rest) =>
          match skipWs rest with
          | ':' :: rest2 =>
              (parseVal fuel (skipWs rest2)).bind fun (v, rest3) =>
                match skipWs rest3 with
                | c4 :: rest4 =>
                  if c4 == Char.ofNat 125 then
                    some (Json.obj [(⟨key⟩, v)], rest4)
                  else if c4 == ',' then
                    (parseObjItems fuel (skipWs rest4) false).bind
                      fun (tl, rest5) =>
                        match tl with
                        | Json.obj fs => some (Json.obj ((⟨key⟩, v) :: fs), rest5)
                        | _ => none
                  else none
                | [] => none
          | _ => none
      else none

end

/-- Model of Python json.loads on one line payload: parse exactly one
value, allowing surrounding whitespace, rejecting trailing garbage. -/
def jsonLoads (cs : List Char) : Option Json :=
  match parseVal (cs.length + 1) (skipWs cs) with
  | some (v, rest) => if (skipWs rest).isEmpty then some v else none
  | none => none

end JsonParser

section StreamDecoder

/-- Python str.strip() whitespace class. -/
def pySpace (c : Char) : Bool :=
  c == ' ' || c == '\t' || c == '\n' || c == '\r' ||
    c == Char.ofNat 11 || c == Char.ofNat 12

/-- Python str.strip(): remove leading and trailing whitespace. -/
def pyStrip (cs : List Char) : List Char :=
  ((cs.dropWhile pySpace).reverse.dropWhile pySpace).reverse

/-- Whether `pre` is a prefix of `cs` (Python str.startswith). -/
def startsWithChars (cs pre : List Char) : Bool :=
  match pre, cs with
  | [], _ => true
  | _ :: _, [] => false
  | p :: ps, c :: rest => p == c && startsWithChars rest ps

/-- The event-data line marker, Python literal 'data: '. -/
def dataMarker : List Char := "data: ".data

/-- Outcome of extracting a delta from one decoded envelope, per
gradio_chat_app.RAGChatBot.query_rag_stream lines 114-117:
`if 'choices' in data and data['choices']:` then
`delta = data['choices'][0].get('delta', \x7b\x7d)` then
`if 'content' in delta: yield delta['content']`.
`err` marks any path where Python raises an exception that the
surrounding `except json.JSONDecodeError` does not catch. -/
inductive DeltaOut where
  | yielded (c : Json)
  | noYield
  | err
deriving Repr

/-- Delta extraction of the chat-app stream decoder (a chunk is yielded
whenever the 'content' key is present in the delta, empty or not). -/
def envelopeDeltaApp (data : Json) : DeltaOut :=
  match Json.keyMem "choices" data with
  | none => .err
  | some false => .noYield
  | some true =>
      match data with
      | .obj fs =>
          match Json.lookupField fs "choices" with
          | none => .err
          | some chs =>
              if chs.pyTruthy then
                match chs with
                | .arr (c0 :: _) =>
                    match c0.dictGetD "delta" (.obj []) with
                    | none => .err
                    | some delta =>
                        match Json.keyMem "content" delta with
                        | none => .err
                        | some false => .noYield
                        | some true =>
                            match delta.dictIndex "content" with
                            | some c => .yielded c
                            | none => .err
                | _ => .err
              else .noYield
      | _ => .err

/-- Delta extraction of the fixed-manager stream decoder
(gradio_kb_manager_fixed.RAGChatBot.query_rag_stream lines 287-291):
`if 'choices' in json_data and len(json_data['choices']) > 0:` then
`content = delta.get('content', '')` and `if content: yield content`
— a chunk is yielded only when the content value is truthy. -/
def envelopeDeltaFixed (data : Json) : DeltaOut :=
  match Json.keyMem "choices" data with
  | none => .err
  | some false => .noYield
  | some true =>
      match data with
      | .obj fs =>
          match Json.lookupField fs "choices" with
          | none => .err
          | some chs =>
              match chs.pyLen with
              | none => .err
              | some l =>
                  if l > 0 then
                    match chs with
                    | .arr (c0 :: _) =>
                        match c0.dictGetD "delta" (.obj []) with
                        | none => .err
                        | some delta =>
                            match delta.dictGetD "content" (.str "") with
                            | none => .err
                            | some content =>
                                if content.pyTruthy then .yielded content
                                else .noYield
                    | _ => .err
                  else .noYield
      | _ => .err

/-- What one source line makes the decoder loop do. -/
inductive LineOut where
  | emit (c : Json)
  | skipLine
  | halt
  | raisedExc
deriving Repr

/-- One iteration of the chat-app stream loop
(gradio_chat_app.RAGChatBot.query_rag_stream lines 108-121): empty
lines are skipped; a line starting with 'data: ' has its remainder
JSON-decoded (decode failure is silently skipped); otherwise, a line
whose strip equals 'data: [DONE]' breaks the loop. The sentinel branch
is an elif of the prefix test, so a line that itself starts with
'data: ' can never reach it. -/
def appLineStep (line : List Char) : LineOut :=
  if line.isEmpty then .skipLine
  else if startsWithChars line dataMarker then
    match jsonLoads (line.drop 6) with
    | none => .skipLine
    | some data =>
        match envelopeDeltaApp data with
        | .yielded c => .emit c
        | .noYield => .skipLine
        | .err => .raisedExc
  else if pyStrip line == "data: [DONE]".data then .halt
  else .skipLine

/-- One iteration of the fixed-manager stream loop
(gradio_kb_manager_fixed.RAGChatBot.query_rag_stream lines 279-293):
after stripping the 'data: ' marker the remainder is compared against
the '[DONE]' sentinel BEFORE any JSON decoding, and the loop breaks
there. -/
def fixedLineStep (line : List Char) : LineOut :=
  if line.isEmpty then .skipLine
  else if startsWithChars line dataMarker then
    let data := line.drop 6
    if pyStrip data == "[DONE]".data then .halt
    else
      match jsonLoads data with
      | none => .skipLine
      | some j =>
          match envelopeDeltaFixed j with
          | .yielded c => .emit c
          | .noYield => .skipLine
          | .err => .raisedExc
  else .skipLine

/-- How a decoding run over a line source ended. -/
inductive StreamEnd where
  | sentinel
  | exhausted
  | raisedExc
deriving Repr, DecidableEq

/-- Result of running a stream decoder over a line source: the chunks
yielded in order, the number of lines consumed from the source, and how
the run ended. -/
structure StreamResult where
  chunks : List Json
  consumed : Nat
  ending : StreamEnd
deriving Repr

/-- Run a per-line step function over the lines delivered by the
transport, in arrival order, mirroring the `for line in
response.iter_lines()` loop of both decoders. -/
def runDecoder (step : List Char → LineOut) : List (List Char) → StreamResult
  | [] => ⟨[], 0, .exhausted⟩
  | l :: ls =>
      match step l with
      | .emit c =>
          let r := runDecoder step ls
          ⟨c :: r.chunks, r.consumed + 1, r.ending⟩
      | .skipLine =>
          let r := runDecoder step ls
          ⟨r.chunks, r.consumed + 1, r.ending⟩
      | .halt => ⟨[], 1, .sentinel⟩
      | .raisedExc => ⟨[], 1, .raisedExc⟩

/-- The chat-app stream decoder (gradio_chat_app.py lines 106-121). -/
def query_rag_stream_app (lines : List (List Char)) : StreamResult :=
  runDecoder appLineStep lines

/-- The fixed-manager stream decoder (gradio_kb_manager_fixed.py lines
277-293). -/
def query_rag_stream_fixed (lines : List (List Char)) : StreamResult :=
  runDecoder fixedLineStep lines

end StreamDecoder

section PyRender

mutual

/-- Python repr() of a decoded JSON value (dicts and lists render with
single quotes), used by the str(...) fallbacks in the listing code. -/
def pyRepr : Json → String
  | .null => "None"
  | .bool true => "True"
  | .bool false => "False"
  | .num n => toString n
  | .str s => "\x27" ++ s ++ "\x27"
  | .arr xs => "[" ++ pyReprList xs ++ "]"
  | .obj fs => "\x7b" ++ pyReprFields fs ++ "\x7d"

/-- Comma-separated repr of list elements. -/
def pyReprList : List Json → String
  | [] => ""
  | [x] => pyRepr x
  | x :: xs => pyRepr x ++ ", " ++ pyReprList xs

/-- Comma-separated repr of dict entries. -/
def pyReprFields : List (String × Json) → String
  | [] => ""
  | [(k, v)] => "\x27" ++ k ++ "\x27: " ++ pyRepr v
  | (k, v) :: fs => "\x27" ++ k ++ "\x27: " ++ pyRepr v ++ ", " ++ pyReprFields fs

end

/-- Python str() of a decoded JSON value. -/
def pyStr : Json → String
  | .str s => s
  | j => pyRepr j

end PyRender

section IngestionListings

/-- An HTTP response as the listing code observes it: a status code and
the result of response.json() (`none` when the body is undecodable, so
that calling .json() raises), or an exception raised by the request
itself. -/
inductive HttpResp where
  | resp (code : Nat) (body : Option Json)
  | raisedExc
deriving Repr

/-- Display name of one document record, per the comprehension in
KnowledgeBaseManager.list_documents (gradio_kb_manager_enhanced.py line
342): doc.get('document_name', doc.get('name', doc.get('id',
str(doc)))); `none` models the AttributeError Python raises when the
element is not a dict. -/
def docDisplayName (doc : Json) : Option Json :=
  match doc with
  | .obj fs =>
      some (((Json.lookupField fs "document_name").getD
        ((Json.lookupField fs "name").getD
          ((Json.lookupField fs "id").getD (.str (pyStr doc))))))
  | _ => none

/-- Display names of a record list; `none` when any element raises
(which aborts the whole comprehension). -/
def docDisplayNames : List Json → Option (List Json)
  | [] => some []
  | d :: ds => (docDisplayName d).bind fun n =>
      (docDisplayNames ds).map fun ns => n :: ns

/-- KnowledgeBaseManager.list_documents (gradio_kb_manager_enhanced.py
lines 328-355): on a 200 response, a dict with a 'documents' list or a
bare list is mapped through the display-name aliases; any other shape,
any non-200 status, and any exception (including one raised inside the
comprehension) yields the empty list. -/
def list_documents (r : HttpResp) : List Json :=
  match r with
  | .raisedExc => []
  | .resp code body =>
      if code == 200 then
        match body with
        | none => []
        | some data =>
            match data with
            | .obj fs =>
                match Json.lookupField fs "documents" with
                | some (.arr ds) => (docDisplayNames ds).getD []
                | some _ => []
                | none => []
            | .arr ds => (docDisplayNames ds).getD []
            | _ => []
      else []

/-- Name of one collection entry, per the comprehensions in
KnowledgeBaseManager.list_collections: col.get('collection_name',
str(col)); `none` models the AttributeError on a non-dict element. -/
def colName (col : Json) : Option Json :=
  match col with
  | .obj fs => some ((Json.lookupField fs "collection_name").getD (.str (pyStr col)))
  | _ => none

/-- Names of a collection record list; `none` when any element raises. -/
def colNames : List Json → Option (List Json)
  | [] => some []
  | c :: cs => (colName c).bind fun n =>
      (colNames cs).map fun ns => n :: ns

/-- KnowledgeBaseManager.list_collections (gradio_kb_manager_enhanced.py
lines 250-276, identical in gradio_kb_manager_fixed.py): on a 200
response, a dict with a non-empty 'collections' list whose first
element is a dict is mapped through collection_name, a non-empty list
of non-dicts is returned as-is, and every unrecognized shape, non-200
status or exception yields the empty list — never an error value. -/
def list_collections (r : HttpResp) : List Json :=
  match r with
  | .raisedExc => []
  | .resp code body =>
      if code == 200 then
        match body with
        | none => []
        | some data =>
            match data with
            | .obj fs =>
                match Json.lookupField fs "collections" with
                | some (.arr (c :: cs)) =>
                    match c with
                    | .obj _ => (colNames (c :: cs)).getD []
                    | _ => c :: cs
                | some (.arr []) => []
                | some _ => []
                | none => []
            | .arr (d :: ds) =>
                match d with
                | .obj _ => (colNames (d :: ds)).getD []
                | _ => d :: ds
            | .arr [] => []
            | _ => []
      else []

/-- get_collections_list (gradio_kb_manager_enhanced.py lines 494-497,
identical in gradio_kb_manager_fixed.py lines 308-311): the UI-facing
helper substitutes the one-element default when the listing comes back
empty (Python truthiness of the list). -/
def get_collections_list (r : HttpResp) : List Json :=
  let collections := list_collections r
  if collections.isEmpty then [.str "multimodal_data"] else collections

end IngestionListings

section PollLoop

/-- What one poll of the document-list endpoint makes the loop do, per
DocumentProcessor._poll_task_status (gradio_kb_manager_enhanced.py
lines 191-226): on a 200 response the raw 'documents' value of the
decoded body (default []) is scanned for a record whose
'document_name' equals the uploaded file's name — found returns
immediately; a non-200 response just falls through to the next
attempt; any exception (undecodable body, non-dict body, non-dict
record, request failure) breaks the loop. -/
inductive PollStep where
  | found
  | notFound
  | raisedExc
deriving Repr, DecidableEq

/-- Scan of the raw documents array: doc.get('document_name') ==
file_name, in order; a non-dict element raises before later elements
are examined. -/
def scanDocs (fileName : String) : List Json → PollStep
  | [] => .notFound
  | d :: ds =>
      match d with
      | .obj fs =>
          if (Json.lookupField fs "document_name").getD Json.null == Json.str fileName
          then .found
          else scanDocs fileName ds
      | _ => .raisedExc

/-- One poll attempt against one response. Iterating a non-list
'documents' value either raises or scans nothing: an empty dict or
empty string iterates zero times, a non-empty dict iterates its string
keys (whose .get raises), a non-empty string iterates characters
(raises), and numbers are not iterable. -/
def pollOnce (fileName : String) (r : HttpResp) : PollStep :=
  match r with
  | .raisedExc => .raisedExc
  | .resp code body =>
      if code == 200 then
        match body with
        | none => .raisedExc
        | some data =>
            match data with
            | .obj fs =>
                match (Json.lookupField fs "documents").getD (.arr []) with
                | .arr ds => scanDocs fileName ds
                | .obj [] => .notFound
                | .obj _ => .raisedExc
                | .str s => if s.isEmpty then .notFound else .raisedExc
                | _ => .raisedExc
            | _ => .raisedExc
      else .notFound

/-- The fixed attempt budget of the poll loop (max_attempts = 60,
checked every 5 seconds, i.e. a 5-minute ceiling). -/
def maxAttempts : Nat := 60

/-- Terminal status the poll loop writes into the task record. -/
inductive PollEnd where
  | completed
  | timeout
deriving Repr, DecidableEq

/-- Result of the poll loop: how many list requests were issued and the
terminal status recorded for the task. -/
structure PollResult where
  polls : Nat
  final : PollEnd
deriving Repr, DecidableEq

/-- The `while attempt < max_attempts` loop, with `attempt` polls
already behind us and `remaining` iterations allowed: finding the
document records completed and returns; an exception breaks to the
timeout epilogue; otherwise sleep 5 and try again; an exhausted budget
falls out of the loop into the timeout epilogue. -/
def pollAux (fileName : String) (backend : Nat → HttpResp) :
    Nat → Nat → PollResult
  | attempt, 0 => ⟨attempt, .timeout⟩
  | attempt, remaining + 1 =>
      match pollOnce fileName (backend attempt) with
      | .found => ⟨attempt + 1, .completed⟩
      | .raisedExc => ⟨attempt + 1, .timeout⟩
      | .notFound => pollAux fileName backend (attempt + 1) remaining

/-- DocumentProcessor._poll_task_status (gradio_kb_manager_enhanced.py
lines 185-235), as a function of the sequence of document-list
responses the backend returns to successive polls. -/
def poll_task_status (fileName : String) (backend : Nat → HttpResp) :
    PollResult :=
  pollAux fileName backend 0 maxAttempts

end PollLoop

section BlockingUpload

/-- Kind of exception a request can raise; requests' Timeout has its
own handler in the blocking upload, while ConnectionError and
everything else fall to the generic `except Exception` handler. -/
inductive ExcKind where
  | timeoutExc
  | connExc
  | otherExc
deriving Repr, DecidableEq

/-- The upload response as DocumentProcessor.upload_document_blocking
observes it. -/
inductive UploadResp where
  | resp (code : Nat) (body : Option Json)
  | raised (e : ExcKind)
deriving Repr

/-- The human-readable reason classes of the blocking-upload result
message. -/
inductive UploadReason where
  | completedMsg
  | failedDocsMsg (fd : Json)
  | httpErrorMsg (code : Nat)
  | timeoutMsg
  | excMsg (e : ExcKind)
deriving Repr

/-- DocumentProcessor.upload_document_blocking
(gradio_kb_manager_enhanced.py lines 45-117): one multipart request; a
200 response with a truthy 'failed_documents' value fails with that
value in the reason, a 200 response without one succeeds, any other
status fails with the status, a Timeout fails through its dedicated
handler, and any other exception (including ConnectionError and an
undecodable 200 body) fails through the generic handler whose message
carries str(e). -/
def upload_document_blocking (r : UploadResp) : Bool × UploadReason :=
  match r with
  | .raised .timeoutExc => (false, .timeoutMsg)
  | .raised e => (false, .excMsg e)
  | .resp code body =>
      if code == 200 then
        match body with
        | none => (false, .excMsg .otherExc)
        | some data =>
            match data with
            | .obj fs =>
                let fd := (Json.lookupField fs "failed_documents").getD Json.null
                if fd.pyTruthy then (false, .failedDocsMsg fd)
                else (true, .completedMsg)
            | _ => (false, .excMsg .otherExc)
      else (false, .httpErrorMsg code)

/-- The blocking upload as a function of a response source: it issues
exactly one request and never consults the source again. -/
def upload_document_blocking_t (t : Nat → UploadResp) : Bool × UploadReason :=
  upload_document_blocking (t 0)

end BlockingUpload

section ChatFallback

/-- A response to one fallback config attempt of
RAGChatBot.query_rag_fallback: a status code with the raw body text,
or a raised exception. -/
inductive FbResp where
  | resp (code : Nat) (bodyText : List Char)
  | raised
deriving Repr

/-- Outcome of `result["choices"][0]["message"]["content"]` guarded by
`if "choices" in result and len(result["choices"]) > 0` (lines
179-181); raiseExc marks paths where Python raises out of the inner
try (whose except clause only catches json.JSONDecodeError) into the
outer `except Exception`. -/
inductive ChoiceOut where
  | got (c : Json)
  | absent
  | raiseExc
deriving Repr

/-- Extract the non-streaming message content from a decoded 200 body. -/
def choicesContent (result : Json) : ChoiceOut :=
  match Json.keyMem "choices" result with
  | none => .raiseExc
  | some false => .absent
  | some true =>
      match result with
      | .obj fs =>
          match Json.lookupField fs "choices" with
          | none => .raiseExc
          | some chs =>
              match chs.pyLen with
              | none => .raiseExc
              | some l =>
                  if l > 0 then
                    match chs with
                    | .arr (c0 :: _) =>
                        match c0.dictIndex "message" with
                        | none => .raiseExc
                        | some msg =>
                            match msg.dictIndex "content" with
                            | none => .raiseExc
                            | some c => .got c
                    | _ => .raiseExc
                  else .absent
      | _ => .raiseExc

/-- Python str.split on a single newline character. -/
def splitNl : List Char → List (List Char)
  | [] => [[]]
  | c :: cs =>
      if c == '\n' then [] :: splitNl cs
      else
        match splitNl cs with
        | l :: ls => (c :: l) :: ls
        | [] => [[c]]

/-- One line of the SSE recovery branch (lines 187-196): a 'data: '
line whose payload decodes and carries a delta content contributes
that content; every failure there is swallowed by the bare `except:`. -/
def sseLinePart (line : List Char) : Option Json :=
  if startsWithChars line dataMarker then
    match jsonLoads (line.drop 6) with
    | none => none
    | some data =>
        match envelopeDeltaApp data with
        | .yielded c => some c
        | _ => none
  else none

/-- All parts must be strings for ''.join to succeed. -/
def asStrings : List Json → Option (List String)
  | [] => some []
  | .str s :: xs => (asStrings xs).map fun ss => s :: ss
  | _ :: _ => none

/-- The terminal values RAGChatBot.query_rag_fallback can return. -/
inductive FbOut where
  | content (c : Json)
  | streamed (parts : List String)
  | okUnknown
  | httpError (code : Nat)
  | serverError500
  | unknownError
  | allConfigsFailed
deriving Repr

/-- What one config attempt does in the fallback loop. -/
inductive CfgOut where
  | done (o : FbOut)
  | fallthrough
  | retry500
  | retryExc
deriving Repr

/-- One iteration of the fallback loop (gradio_chat_app.py lines
167-211) against its response: a 200 body that decodes to a JSON value
with a choices message content returns it; a 200 body that decodes but
has no such content falls through to the next config; an undecodable
200 body takes the SSE recovery branch, whose joined parts (or
unknown-format note) are returned; a 500 retries the next config; any
non-200 non-500 status is returned immediately; an exception retries
the next config. -/
def runCfg (r : FbResp) : CfgOut :=
  match r with
  | .raised => .retryExc
  | .resp code bodyText =>
      if code == 200 then
        match jsonLoads bodyText with
        | some result =>
            match choicesContent result with
            | .got c => .done (.content c)
            | .absent => .fallthrough
            | .raiseExc => .retryExc
        | none =>
            let stripped := pyStrip bodyText
            if stripped.isEmpty then .done .okUnknown
            else
              let parts := (splitNl stripped).filterMap sseLinePart
              if parts.isEmpty then .done .okUnknown
              else
                match asStrings parts with
                | some ss => .done (.streamed ss)
                | none => .retryExc
      else if code == 500 then .retry500
      else .done (.httpError code)

/-- The last config's attempt is terminal: a retry condition there
returns the corresponding error message, and falling out of the loop
returns the all-configs-failed message (line 213). -/
def runLastCfg (r : FbResp) : FbOut :=
  match runCfg r with
  | .done o => o
  | .fallthrough => .allConfigsFailed
  | .retry500 => .serverError500
  | .retryExc => .unknownError

/-- Number of entries of the `configs` list literal actually reachable
in RAGChatBot.query_rag_fallback (lines 140-165); the three-config
list further down the function body sits after an unconditional return
and is never executed. -/
def fallbackConfigCount : Nat := 2

/-- RAGChatBot.query_rag_fallback (gradio_chat_app.py lines 132-213)
as a function of the per-config transport responses, also reporting
how many configs were attempted. -/
def query_rag_fallback (t : Nat → FbResp) : FbOut × Nat :=
  match runCfg (t 0) with
  | .done o => (o, 1)
  | _ => (runLastCfg (t 1), 2)

end ChatFallback

section Fixtures

/-- A well-formed event-stream line carrying delta content "A". -/
def lineA : List Char :=
  "data: \x7b\"choices\": [\x7b\"delta\": \x7b\"content\": \"A\"\x7d\x7d]\x7d".data

/-- A well-formed event-stream line carrying delta content "B". -/
def lineB : List Char :=
  "data: \x7b\"choices\": [\x7b\"delta\": \x7b\"content\": \"B\"\x7d\x7d]\x7d".data

/-- A well-formed event-stream line carrying delta content "C". -/
def lineC : List Char :=
  "data: \x7b\"choices\": [\x7b\"delta\": \x7b\"content\": \"C\"\x7d\x7d]\x7d".data

/-- The terminal sentinel line exactly as the backend sends it. -/
def lineDone : List Char := "data: [DONE]".data

/-- A well-formed event-stream line whose delta content is the empty
string. -/
def lineEmptyContent : List Char :=
  "data: \x7b\"choices\": [\x7b\"delta\": \x7b\"content\": \"\"\x7d\x7d]\x7d".data

/-- A data line whose payload is not decodable JSON. -/
def lineBadJson : List Char := "data: \x7bnot json".data

/-- The streaming envelope around one delta value. -/
def mkEnvelope (delta : Json) : Json :=
  .obj [("choices", .arr [.obj [("delta", delta)]])]

/-- Bare-array encoding of a logical collection-name list. -/
def bareNamesEnc (ns : List String) : Json :=
  .arr (ns.map .str)

/-- Wrapped-object encoding with the names as plain strings. -/
def wrappedNamesEnc (ns : List String) : Json :=
  .obj [("collections", .arr (ns.map .str))]

/-- Wrapped-object encoding with the names as records under the
collection_name alias. -/
def wrappedRecordsEnc (ns : List String) : Json :=
  .obj [("collections", .arr (ns.map fun n => .obj [("collection_name", .str n)]))]

/-- Top-level shapes the collection-list normalization recognizes: a
bare sequence, or an object whose 'collections' member is a sequence. -/
def collectionsShapeRecognized : Json → Bool
  | .arr _ => true
  | .obj fs =>
      match Json.lookupField fs "collections" with
      | some (.arr _) => true
      | _ => false
  | _ => false

/-- A document-list backend that always answers 200 with an empty
documents array. -/
def emptyDocsBackend : Nat → HttpResp :=
  fun _ => .resp 200 (some (.obj [("documents", .arr [])]))

/-- A document-list response whose single record carries the uploaded
file's name under the 'name' alias rather than 'document_name'. -/
def nameAliasDocsBody : Json :=
  .obj [("documents", .arr [.obj [("name", .str "f.txt")]])]

/-- A document-list backend where the record (under 'document_name')
appears only from the third poll on. -/
def thirdPollBackend : Nat → HttpResp :=
  fun n =>
    if n < 2 then .resp 200 (some (.obj [("documents", .arr [])]))
    else .resp 200 (some (.obj [("documents",
      .arr [.obj [("document_name", .str "f.txt")]])]))

end Fixtures

section HelperLemmas

/-- Python == of a decoded JSON value against a string compares
structural equality. -/
theorem json_beq_str_iff (v : Json) (s : String) :
    (v == Json.str s) = true ↔ v = Json.str s := by
  cases v <;> simp [(· == ·), Json.beq]

/-- doc.get('document_name') == file_name succeeds exactly when the
key is present and bound to exactly that string. -/
theorem getD_null_beq_str_iff (o : Option Json) (s : String) :
    ((o.getD Json.null) == Json.str s) = true ↔ o = some (.str s) := by
  cases o with
  | none => simp [(· == ·), Json.beq]
  | some v => simpa using json_beq_str_iff v s

/-- A line with the data marker in front is not empty. -/
theorem startsWith_dataMarker_ne_nil (l : List Char)
    (h : startsWithChars l dataMarker = true) : l.isEmpty = false := by
  cases l with
  | nil => simp [startsWithChars, dataMarker] at h
  | cons c cs => simp

end HelperLemmas

/-- C1. The chat-app stream decoder yields exactly "A" then "B" for the
well-formed sequence, so the concatenation is "AB" — but its sentinel
branch (`elif line_text.strip() == 'data: [DONE]'`) is shadowed by the
`data: ` prefix branch, which swallows the sentinel line as an
undecodable frame: the decoder does NOT stop at the sentinel and keeps
consuming (and yielding) lines placed after it, while the repository's
own fixed decoder (gradio_kb_manager_fixed.py), which compares against
'[DONE]' before JSON-decoding, stops exactly there. The spec states
the fixed behaviour; the chat-app code is the slip. -/
theorem C1_stream_sentinel_code_bug :
    query_rag_stream_app [lineA, lineB, lineDone] =
      ⟨[.str "A", .str "B"], 3, .exhausted⟩ ∧
    query_rag_stream_app [lineA, lineB, lineDone, lineC] =
      ⟨[.str "A", .str "B", .str "C"], 4, .exhausted⟩ ∧
    query_rag_stream_fixed [lineA, lineB, lineDone, lineC] =
      ⟨[.str "A", .str "B"], 3, .sentinel⟩ := by
  refine ⟨rfl, rfl, rfl⟩

/-- C5. A 'data: ' line whose payload fails to JSON-decode, inserted
between two valid delta-carrying lines, is silently skipped by the
chat-app stream decoder: both surrounding chunks are yielded in order
and the stream is not aborted. -/
theorem C5_malformed_line_skipped
    (l1 lbad l2 : List Char) (j1 j2 c1 c2 : Json)
    (h1m : startsWithChars l1 dataMarker = true)
    (h1p : jsonLoads (l1.drop 6) = some j1)
    (h1d : envelopeDeltaApp j1 = .yielded c1)
    (hbm : startsWithChars lbad dataMarker = true)
    (hbp : jsonLoads (lbad.drop 6) = none)
    (h2m : startsWithChars l2 dataMarker = true)
    (h2p : jsonLoads (l2.drop 6) = some j2)
    (h2d : envelopeDeltaApp j2 = .yielded c2) :
    query_rag_stream_app [l1, lbad, l2] = ⟨[c1, c2], 3, .exhausted⟩ := by
  have e1 : appLineStep l1 = .emit c1 := by
    simp [appLineStep, startsWith_dataMarker_ne_nil l1 h1m, h1m, h1p, h1d]
  have eb : appLineStep lbad = .skipLine := by
    simp [appLineStep, startsWith_dataMarker_ne_nil lbad hbm, hbm, hbp]
  have e2 : appLineStep l2 = .emit c2 := by
    simp [appLineStep, startsWith_dataMarker_ne_nil l2 h2m, h2m, h2p, h2d]
  simp [query_rag_stream_app, runDecoder, e1, eb, e2]

/-- Witness for C5 at a concrete malformed line between the "A" and
"B" lines. -/
theorem C5_malformed_line_skipped_witness :
    query_rag_stream_app [lineA, lineBadJson, lineB] =
      ⟨[.str "A", .str "B"], 3, .exhausted⟩ :=
  C5_malformed_line_skipped lineA lineBadJson lineB
    (mkEnvelope (.obj [("content", .str "A")]))
    (mkEnvelope (.obj [("content", .str "B")]))
    (.str "A") (.str "B") rfl rfl rfl rfl rfl rfl rfl rfl

/-- C8 counterexample: the chat-app decoder emits a chunk for an
envelope whose delta content is present but EMPTY — `if 'content' in
delta` tests key presence only — so not every yielded text chunk is a
non-empty string, refuting the claimed iff at this input. -/
theorem C8_chunk_emission_counterexample :
    (query_rag_stream_app [lineEmptyContent]).chunks = [Json.str ""] ∧
    ¬ (∀ c ∈ (query_rag_stream_app [lineEmptyContent]).chunks,
        ∃ s, c = Json.str s ∧ s ≠ "") := by
  refine ⟨rfl, fun h => ?_⟩
  obtain ⟨s, hs, hne⟩ := h (Json.str "") (by rw [show (query_rag_stream_app
    [lineEmptyContent]).chunks = [Json.str ""] from rfl]; simp)
  cases hs
  exact hne rfl

/-- C8 amended: in the fixed-manager decoder a chunk is emitted from an
envelope exactly when the delta carries a present and truthy (for
strings: non-empty) content value, and every string chunk it yields is
non-empty; the chat-app decoder instead emits exactly when the content
key is present, empty or not. -/
theorem C8_chunk_emission_amended (delta c : Json) :
    (envelopeDeltaFixed (mkEnvelope delta) = .yielded c ↔
      Json.dictIndex delta "content" = some c ∧ c.pyTruthy = true) ∧
    (envelopeDeltaApp (mkEnvelope delta) = .yielded c ↔
      Json.dictIndex delta "content" = some c) ∧
    (∀ s, envelopeDeltaFixed (mkEnvelope delta) = .yielded (.str s) → s ≠ "") := by
  have hempty : ("" : String).isEmpty = true := rfl
  have hfix : ∀ c' : Json, envelopeDeltaFixed (mkEnvelope delta) = .yielded c' ↔
      Json.dictIndex delta "content" = some c' ∧ c'.pyTruthy = true := by
    intro c'
    cases delta with
    | obj fs =>
        cases hx : Json.lookupField fs "content" with
        | none =>
            simp [envelopeDeltaFixed, mkEnvelope, Json.keyMem, Json.pyLen,
              Json.dictGetD, Json.dictIndex, Json.lookupField, hx,
              Json.pyTruthy, hempty]
        | some v =>
            by_cases hv : v.pyTruthy = true <;>
              simp [envelopeDeltaFixed, mkEnvelope, Json.keyMem, Json.pyLen,
                Json.dictGetD, Json.dictIndex, Json.lookupField, hx, hv] <;>
              aesop
    | arr xs =>
        cases hm : Json.keyMem "content" (Json.arr xs) with
        | none => simp [Json.keyMem] at hm
        | some b =>
            cases b <;>
              simp_all [envelopeDeltaFixed, mkEnvelope, Json.keyMem, Json.pyLen,
                Json.dictGetD, Json.dictIndex, Json.lookupField]
    | str s =>
        by_cases hm : Json.strContains s "content" = true <;>
          simp_all [envelopeDeltaFixed, mkEnvelope, Json.keyMem, Json.pyLen,
            Json.dictGetD, Json.dictIndex, Json.lookupField]
    | null =>
        simp [envelopeDeltaFixed, mkEnvelope, Json.keyMem, Json.pyLen,
          Json.dictGetD, Json.dictIndex, Json.lookupField]
    | bool b =>
        simp [envelopeDeltaFixed, mkEnvelope, Json.keyMem, Json.pyLen,
          Json.dictGetD, Json.dictIndex, Json.lookupField]
    | num n =>
        simp [envelopeDeltaFixed, mkEnvelope, Json.keyMem, Json.pyLen,
          Json.dictGetD, Json.dictIndex, Json.lookupField]
  refine ⟨hfix c, ?_, fun s hy => ?_⟩
  · cases delta with
    | obj fs =>
        cases hx : Json.lookupField fs "content" with
        | none =>
            simp [envelopeDeltaApp, mkEnvelope, Json.keyMem, Json.pyTruthy,
              Json.dictGetD, Json.dictIndex, Json.lookupField, hx]
        | some v =>
            simp [envelopeDeltaApp, mkEnvelope, Json.keyMem, Json.pyTruthy,
              Json.dictGetD, Json.dictIndex, Json.lookupField, hx]
    | arr xs =>
        cases hm : Json.keyMem "content" (Json.arr xs) with
        | none => simp [Json.keyMem] at hm
        | some b =>
            cases b <;>
              simp_all [envelopeDeltaApp, mkEnvelope, Json.keyMem, Json.pyTruthy,
                Json.dictGetD, Json.dictIndex, Json.lookupField]
    | str s =>
        by_cases hm : Json.strContains s "content" = true <;>
          simp_all [envelopeDeltaApp, mkEnvelope, Json.keyMem, Json.pyTruthy,
            Json.dictGetD, Json.dictIndex, Json.lookupField]
    | null =>
        simp [envelopeDeltaApp, mkEnvelope, Json.keyMem, Json.pyTruthy,
          Json.dictGetD, Json.dictIndex, Json.lookupField]
    | bool b =>
        simp [envelopeDeltaApp, mkEnvelope, Json.keyMem, Json.pyTruthy,
          Json.dictGetD, Json.dictIndex, Json.lookupField]
    | num n =>
        simp [envelopeDeltaApp, mkEnvelope, Json.keyMem, Json.pyTruthy,
          Json.dictGetD, Json.dictIndex, Json.lookupField]
  · have h2 := ((hfix (.str s)).mp hy).2
    intro hs
    rw [hs] at h2
    simp [Json.pyTruthy, hempty] at h2

/-- Witness for C8 amended: a delta with the non-empty content "hi"
makes the fixed decoder yield exactly that chunk. -/
theorem C8_chunk_emission_amended_witness :
    envelopeDeltaFixed (mkEnvelope (.obj [("content", .str "hi")])) =
      .yielded (.str "hi") :=
  ((C8_chunk_emission_amended (.obj [("content", .str "hi")]) (.str "hi")).1).mpr
    ⟨rfl, rfl⟩

/-- If every poll in the window comes back without the document (and
without raising), the loop runs through its whole budget and records a
timeout. -/
theorem pollAux_all_notFound (fileName : String) (backend : Nat → HttpResp) :
    ∀ (remaining attempt : Nat),
      (∀ n, attempt ≤ n → n < attempt + remaining →
        pollOnce fileName (backend n) = .notFound) →
      pollAux fileName backend attempt remaining =
        ⟨attempt + remaining, .timeout⟩ := by
  intro remaining
  induction remaining with
  | zero => intro attempt _; simp [pollAux]
  | succ r ih =>
      intro attempt h
      have h0 : pollOnce fileName (backend attempt) = .notFound :=
        h attempt le_rfl (by omega)
      have hrec := ih (attempt + 1) (fun n hn1 hn2 => h n (by omega) (by omega))
      simp [pollAux, h0, hrec]
      omega

/-- If the polls before index k come back without the document and the
poll at index k finds it, the loop stops right there: exactly k + 1
list requests, completed status. -/
theorem pollAux_found (fileName : String) (backend : Nat → HttpResp) :
    ∀ (remaining attempt k : Nat), attempt ≤ k → k < attempt + remaining →
      (∀ n, attempt ≤ n → n < k → pollOnce fileName (backend n) = .notFound) →
      pollOnce fileName (backend k) = .found →
      pollAux fileName backend attempt remaining = ⟨k + 1, .completed⟩ := by
  intro remaining
  induction remaining with
  | zero => intro attempt k h1 h2 _ _; omega
  | succ r ih =>
      intro attempt k h1 h2 hpre hk
      by_cases hak : attempt = k
      · subst hak
        simp [pollAux, hk]
      · have h0 : pollOnce fileName (backend attempt) = .notFound :=
          hpre attempt le_rfl (by omega)
        have hrec := ih (attempt + 1) k (by omega) (by omega)
          (fun n hn1 hn2 => hpre n (by omega) hn2) hk
        simp [pollAux, h0, hrec]

/-- C3. If the uploaded document never appears in any of the
document-list poll responses (each poll comes back without finding it
and without raising), the poll loop issues exactly the fixed budget of
60 list requests and only then records the timed-out status — never
earlier. -/
theorem C3_poll_timeout_budget (fileName : String) (backend : Nat → HttpResp)
    (h : ∀ n, n < maxAttempts → pollOnce fileName (backend n) = .notFound) :
    poll_task_status fileName backend = ⟨60, .timeout⟩ := by
  have := pollAux_all_notFound fileName backend maxAttempts 0
    (fun n _ hn2 => h n (by omega))
  simpa [poll_task_status, maxAttempts] using this

/-- Witness for C3: a backend that always answers with an empty
documents array times out after exactly 60 polls. -/
theorem C3_poll_timeout_budget_witness :
    poll_task_status "report.pdf" emptyDocsBackend = ⟨60, .timeout⟩ :=
  C3_poll_timeout_budget "report.pdf" emptyDocsBackend (fun _ _ => rfl)

/-- C2 counterexample: a backend whose very first document-list
response carries a record whose normalized display name (via the
document-list alias resolution of list_documents) equals the uploaded
file's name — but under the 'name' alias rather than 'document_name'.
The claimed detection rule says the first poll completes the task;
the poll loop, which checks only the raw 'document_name' field, never
detects it and times out after the full 60-poll budget. -/
theorem C2_poll_detection_counterexample :
    list_documents (.resp 200 (some nameAliasDocsBody)) = [.str "f.txt"] ∧
    poll_task_status "f.txt" (fun _ => .resp 200 (some nameAliasDocsBody)) =
      ⟨60, .timeout⟩ := by
  constructor
  · rfl
  · have := pollAux_all_notFound "f.txt"
      (fun _ => .resp 200 (some nameAliasDocsBody)) maxAttempts 0
      (fun n _ _ => rfl)
    simpa [poll_task_status, maxAttempts] using this

/-- C2 amended: completion detection in the async poll loop reads the
raw 'documents' array of each response and fires exactly when some
record's 'document_name' field equals the uploaded file's name (no
alias fallback, unlike list_documents); the first poll that finds such
a record transitions the task to completed and stops polling, so a
document appearing at the 3rd poll means exactly 3 list requests are
ever issued. -/
theorem C2_poll_detection_amended (fileName : String) :
    (∀ ds : List Json, (∀ d ∈ ds, ∃ fs, d = Json.obj fs) →
      (scanDocs fileName ds = .found ↔
        ∃ fs, Json.obj fs ∈ ds ∧
          Json.lookupField fs "document_name" = some (.str fileName))) ∧
    (∀ (backend : Nat → HttpResp) (k : Nat), k < maxAttempts →
      (∀ n, n < k → pollOnce fileName (backend n) = .notFound) →
      pollOnce fileName (backend k) = .found →
      poll_task_status fileName backend = ⟨k + 1, .completed⟩) := by
  constructor
  · intro ds
    induction ds with
    | nil => intro _; simp [scanDocs]
    | cons d ds ih =>
        intro h
        obtain ⟨fs0, rfl⟩ := h d (by simp)
        have htl := ih (fun x hx => h x (by simp [hx]))
        by_cases hc : Json.lookupField fs0 "document_name" = some (.str fileName)
        · have hb : ((Json.lookupField fs0 "document_name").getD Json.null ==
              Json.str fileName) = true := (getD_null_beq_str_iff _ _).mpr hc
          refine ⟨fun _ => ⟨fs0, by simp, hc⟩, fun _ => ?_⟩
          simp [scanDocs, hb]
        · have hb : ((Json.lookupField fs0 "document_name").getD Json.null ==
              Json.str fileName) = false := by
            cases hx : ((Json.lookupField fs0 "document_name").getD Json.null ==
              Json.str fileName) with
            | false => rfl
            | true => exact absurd ((getD_null_beq_str_iff _ _).mp hx) hc
          have hscan : scanDocs fileName (Json.obj fs0 :: ds) =
              scanDocs fileName ds := by simp [scanDocs, hb]
          rw [hscan, htl]
          constructor
          · rintro ⟨fs, hmem, hp⟩
            exact ⟨fs, List.mem_cons_of_mem _ hmem, hp⟩
          · rintro ⟨fs, hmem, hp⟩
            rcases List.mem_cons.mp hmem with heq2 | hm2
            · injection heq2 with hfs
              subst hfs
              exact absurd hp hc
            · exact ⟨fs, hm2, hp⟩
  · intro backend k hk hpre hfound
    have := pollAux_found fileName backend maxAttempts 0 k (by omega) (by omega)
      (fun n _ hn => hpre n hn) hfound
    simpa [poll_task_status] using this

/-- Witness for C2 amended: the document appears (under
'document_name') only from the 3rd poll on; the task completes with
exactly 3 list requests issued, so a 4th poll never happens. -/
theorem C2_poll_detection_amended_witness :
    poll_task_status "f.txt" thirdPollBackend = ⟨3, .completed⟩ :=
  (C2_poll_detection_amended "f.txt").2 thirdPollBackend 2 (by decide)
    (fun n hn => by interval_cases n <;> rfl) rfl

/-- C4 counterexample: with a transport that answers 500 to every
variant, the reachable fallback loop is terminal after attempting
exactly TWO payload variants (its configs list has two entries — the
three-variant list later in the function sits behind an unconditional
return); under the claimed three-variant list, the second variant's
500 would not be terminal. -/
theorem C4_fallback_counterexample :
    query_rag_fallback (fun _ => .resp 500 []) = (.serverError500, 2) ∧
    fallbackConfigCount = 2 :=
  ⟨rfl, rfl⟩

/-- C4 amended: the fallback list has two variants (full-featured,
then knowledge-base-disabled/simplified). The first variant whose 200
response decodes to a choices message content supplies the returned
content with no later variant attempted; a status of exactly 500 on
the first variant retries the second, while any other non-200 status
(including other 5xx codes such as 502) is returned immediately after
a single attempt with no retry; failure of the second (last) variant
is terminal. -/
theorem C4_fallback_amended (t : Nat → FbResp) :
    (∀ (body : List Char) (r c : Json), t 0 = .resp 200 body →
      jsonLoads body = some r → choicesContent r = .got c →
      query_rag_fallback t = (.content c, 1)) ∧
    (∀ (b0 body : List Char) (r c : Json), t 0 = .resp 500 b0 →
      t 1 = .resp 200 body → jsonLoads body = some r →
      choicesContent r = .got c →
      query_rag_fallback t = (.content c, 2)) ∧
    (∀ b0 b1 : List Char, t 0 = .resp 500 b0 → t 1 = .resp 500 b1 →
      query_rag_fallback t = (.serverError500, 2)) ∧
    (∀ (code : Nat) (b0 : List Char), code ≠ 200 → code ≠ 500 →
      t 0 = .resp code b0 →
      query_rag_fallback t = (.httpError code, 1)) := by
  refine ⟨?_, ?_, ?_, ?_⟩
  · intro body r c h0 hp hc
    simp [query_rag_fallback, h0, runCfg, hp, hc]
  · intro b0 body r c h0 h1 hp hc
    simp [query_rag_fallback, h0, h1, runCfg, runLastCfg, hp, hc]
  · intro b0 b1 h0 h1
    simp [query_rag_fallback, h0, h1, runCfg, runLastCfg]
  · intro code b0 h200 h500 h0
    simp [query_rag_fallback, h0, runCfg, h200, h500]

/-- Witness for C4 amended at the spec's scenario: variant 1 gets a
500, variant 2 a decodable 200 with content "hi" — the session returns
that content after exactly two attempts, never a third; and a 502 on
variant 1 is terminal at once, with no second attempt. -/
theorem C4_fallback_amended_witness :
    query_rag_fallback (fun n => if n = 0 then .resp 500 [] else
      .resp 200 ("\x7b\"choices\": [\x7b\"message\": \x7b\"content\": \"hi\"\x7d\x7d]\x7d".data)) =
      (.content (.str "hi"), 2) ∧
    query_rag_fallback (fun _ => .resp 502 []) = (.httpError 502, 1) :=
  ⟨(C4_fallback_amended _).2.1 []
    ("\x7b\"choices\": [\x7b\"message\": \x7b\"content\": \"hi\"\x7d\x7d]\x7d".data)
    (.obj [("choices", .arr [.obj [("message", .obj [("content", .str "hi")])]])])
    (.str "hi") rfl rfl rfl rfl,
   (C4_fallback_amended _).2.2.2 502 [] (by decide) (by decide) rfl⟩

/-- C6 counterexample: a JSON number is no recognized collection-list
shape, yet normalization returns the plain default empty list — the
same value a legitimately empty recognized listing returns — rather
than an explicit unrecognized-shape error (the function's codomain has
no error value at all). -/
theorem C6_unrecognized_shape_counterexample :
    list_collections (.resp 200 (some (.num 42))) = ([] : List Json) ∧
    list_collections (.resp 200 (some (.arr []))) = ([] : List Json) :=
  ⟨rfl, rfl⟩

/-- C6 amended: for every JSON value not matching a recognized
collection-list shape, list_collections logs and silently returns the
default empty list (never an error value), and exceptions are caught,
also producing the empty list — it never throws uncaught. -/
theorem C6_unrecognized_shape_amended (data : Json)
    (h : collectionsShapeRecognized data = false) :
    list_collections (.resp 200 (some data)) = [] ∧
    list_collections .raisedExc = [] := by
  refine ⟨?_, rfl⟩
  cases data with
  | obj fs =>
      cases hx : Json.lookupField fs "collections" with
      | none => simp [list_collections, hx]
      | some v =>
          cases v <;> simp_all [list_collections, collectionsShapeRecognized, hx]
  | arr xs => simp [collectionsShapeRecognized] at h
  | null => rfl
  | bool b => rfl
  | num n => rfl
  | str s => rfl

/-- Witness for C6 amended: a bare string body is unrecognized and
normalizes to the empty list. -/
theorem C6_unrecognized_shape_amended_witness :
    list_collections (.resp 200 (some (.str "oops"))) = [] :=
  (C6_unrecognized_shape_amended (.str "oops") rfl).1

/-- C7. Blocking-upload classification: a 200 ack with a non-empty
failed_documents list fails with that list in the reason; a 200 ack
with no failure descriptors (key absent or empty list) completes; a
Timeout fails with the timeout classification and a ConnectionError
with the generic-exception classification carrying the error; and the
result depends only on the single response to the one request issued —
no retry can occur. -/
theorem C7_blocking_upload_classification :
    (∀ (fs : List (String × Json)) (d : Json) (ds : List Json),
      Json.lookupField fs "failed_documents" = some (.arr (d :: ds)) →
      upload_document_blocking (.resp 200 (some (.obj fs))) =
        (false, .failedDocsMsg (.arr (d :: ds)))) ∧
    (∀ fs : List (String × Json),
      Json.lookupField fs "failed_documents" = none ∨
      Json.lookupField fs "failed_documents" = some (.arr []) →
      upload_document_blocking (.resp 200 (some (.obj fs))) =
        (true, .completedMsg)) ∧
    upload_document_blocking (.raised .timeoutExc) = (false, .timeoutMsg) ∧
    upload_document_blocking (.raised .connExc) = (false, .excMsg .connExc) ∧
    (∀ t t' : Nat → UploadResp, t 0 = t' 0 →
      upload_document_blocking_t t = upload_document_blocking_t t') := by
  refine ⟨?_, ?_, rfl, rfl, ?_⟩
  · intro fs d ds h
    simp [upload_document_blocking, h, Json.pyTruthy]
  · intro fs h
    rcases h with h | h <;> simp [upload_document_blocking, h, Json.pyTruthy]
  · intro t t' h
    simp [upload_document_blocking_t, h]

/-- Witness for C7 at concrete acks: one with a failed document, one
without. -/
theorem C7_blocking_upload_classification_witness :
    upload_document_blocking (.resp 200 (some (.obj [("failed_documents",
        .arr [.str "bad.pdf"])]))) =
      (false, .failedDocsMsg (.arr [.str "bad.pdf"])) ∧
    upload_document_blocking (.resp 200 (some (.obj [("message", .str "ok")]))) =
      (true, .completedMsg) :=
  ⟨(C7_blocking_upload_classification).1 _ _ _ rfl,
   (C7_blocking_upload_classification).2.1 _ (Or.inl rfl)⟩

/-- colNames maps a list of collection_name records to their names. -/
theorem colNames_records (ns : List String) :
    colNames (ns.map fun n => .obj [("collection_name", .str n)]) =
      some (ns.map .str) := by
  induction ns with
  | nil => rfl
  | cons n ns ih => simp [colNames, colName, Json.lookupField, ih]

/-- C9. The bare-array encoding, the wrapped-object encoding with
plain name strings, and the wrapped-object encoding with records under
the collection_name alias all normalize to the identical canonical
name list. -/
theorem C9_shape_normalization_agreement (ns : List String) :
    list_collections (.resp 200 (some (bareNamesEnc ns))) = ns.map Json.str ∧
    list_collections (.resp 200 (some (wrappedNamesEnc ns))) = ns.map Json.str ∧
    list_collections (.resp 200 (some (wrappedRecordsEnc ns))) = ns.map Json.str := by
  refine ⟨?_, ?_, ?_⟩ <;> cases ns with
  | nil => rfl
  | cons n ns => simp [list_collections, bareNamesEnc, wrappedNamesEnc,
      wrappedRecordsEnc, Json.lookupField, colNames, colName, colNames_records]

/-- C10. The UI-facing collection-listing helper never returns an
empty list: whenever the underlying listing is empty (for any reason —
unrecognized shape, error status, exception), it substitutes the
one-element default, and an empty backend is indistinguishable from
one containing only the default collection. -/
theorem C10_default_collection_fallback :
    (∀ r : HttpResp, get_collections_list r ≠ []) ∧
    (∀ r : HttpResp, list_collections r = [] →
      get_collections_list r = [.str "multimodal_data"]) ∧
    get_collections_list (.resp 200 (some (.arr []))) =
      get_collections_list (.resp 200 (some (.arr [.str "multimodal_data"]))) := by
  refine ⟨?_, ?_, rfl⟩
  · intro r
    cases hx : list_collections r with
    | nil => simp [get_collections_list, hx]
    | cons a l => simp [get_collections_list, hx]
  · intro r h
    simp [get_collections_list, h]

/-- Witness for C10 at a backend whose request raises: the helper
substitutes the default list. -/
theorem C10_default_collection_fallback_witness :
    get_collections_list .raisedExc = [.str "multimodal_data"] :=
  (C10_default_collection_fallback).2.1 .raisedExc rfl
